import Mathlib

/-!
Verification of the moonsync-model query-routing and streaming-inference
orchestrator (`src/app.py`, class `Model`).

The shallow embedding below translates the parts of `app.py` that the claims
are about:

* `webInference` embeds `Model.web_inference` (app.py lines 336-386): prompt
  extraction from a plain string or a structured-content list, the image
  handler call, the Terra user-id suffix, and the three-way routing on the
  `"@internet"` and `"schedule"` substring tests.
* `enter` embeds the parts of `Model.enter` (app.py lines 99-298) that carry
  per-session state the claims mention: the current date captured once at
  container start, the derived day name and context strings, and the fixed
  tool registry `tools_data` (lines 253-287).  The external collaborators
  that `enter` also constructs (Supabase client, LLM handles, embedding
  model, Pinecone indexes, query engines) are opaque to every claim and are
  not part of the state; the chat engine, the one attribute a request
  handler reassigns, is kept as an abstract identifier.
* `handleRequest` / `runRequests` embed a container lifetime: one `enter`
  followed by a sequence of `web_inference` calls, where the retrieval path
  reassigns `self.chat_engine` (app.py line 309) and no handler assigns any
  other attribute.
* `biometrics_details` embeds the endpoint at app.py lines 422-443; the
  attribute `df` that it reads is `Option`-valued in the state because no
  method of the class ever assigns `self.df`.
* `dasboard_biometric_data_load` embeds the endpoint at app.py lines
  458-487; its `body_temperature` expression
  `round(temperature if temperature else 0 + 98.6, 2)` is translated with
  Python conditional-expression precedence.  Python floats are modelled as
  rationals and `round(x, 2)` as `round2` (round-half-to-even at two decimal
  places, Python's rounding mode).
-/

namespace Moonsync

/-! ### Substring containment, the model of Python's `in` on strings -/

/-- Whether `pat` is a prefix of `s`, on character lists. -/
def startsWithChars : List Char → List Char → Bool
  | [], _ => true
  | _ :: _, [] => false
  | p :: ps, c :: cs => p == c && startsWithChars ps cs

/-- Whether `pat` occurs contiguously inside `s`, on character lists: the
substring scan behind Python's `pat in s`. -/
def containsChars (pat : List Char) : List Char → Bool
  | [] => pat.isEmpty
  | c :: cs => startsWithChars pat (c :: cs) || containsChars pat cs

/-- Python's `pat in s` substring test on strings. -/
def strContains (s pat : String) : Bool :=
  containsChars pat.toList s.toList

/-! ### The request data model (app.py lines 337-348)

An inbound request body `item` has a `"prompt"` that is either a plain
string or a structured-content list whose entries carry a `"type"` tag of
`"text"` or `"image_url"` (entries with any other tag are skipped by the
loop), a `"messages"` transcript, and an optional `"terra_user_id"`. -/

/-- One entry of a structured-content `"prompt"` list. -/
inductive PromptContent where
  | textItem (text : String)
  | imageItem (url : String)
  | otherItem
deriving DecidableEq

/-- The `"prompt"` field: a plain string or a structured-content list. -/
inductive PromptField where
  | str (s : String)
  | list (items : List PromptContent)
deriving DecidableEq

/-- The request body passed to `web_inference`.  `terra_user_id` is `none`
when the key is absent (`item.get("terra_user_id", None)`). -/
structure Item where
  prompt : PromptField
  messages : List (String × String)
  terra_user_id : Option String
deriving DecidableEq

/-- One iteration of the loop of app.py lines 340-344 over a
structured-content list: a `"text"` entry overwrites the prompt component, an
`"image_url"` entry overwrites the image-url component, anything else leaves
the pair unchanged. -/
def extractStep (acc : String × String) (v : PromptContent) : String × String :=
  match v with
  | .textItem s => (s, acc.2)
  | .imageItem u => (acc.1, u)
  | .otherItem => acc

/-- The loop of app.py lines 340-344, folding the pair
`(prompt, image_url)` from `("", "")`. -/
def extractPromptImage (items : List PromptContent) : String × String :=
  items.foldl extractStep ("", "")

/-- The texts of the `"text"` entries of a structured-content list, in order. -/
def textEntries (items : List PromptContent) : List String :=
  items.filterMap fun v =>
    match v with
    | .textItem s => some s
    | _ => none

/-- The prompt text after the `isinstance(item["prompt"], list)` branch of
app.py lines 339-346: the plain string, or the fold over the list. -/
def resolvedPrompt (item : Item) : String :=
  match item.prompt with
  | .str s => s
  | .list l => (extractPromptImage l).1

/-- The image url after the same branch: `""` unless a structured-content
entry set it. -/
def resolvedImageUrl (item : Item) : String :=
  match item.prompt with
  | .str _ => ""
  | .list l => (extractPromptImage l).2

/-- The prompt on which the two marker tests run (app.py lines 358-360):
the resolved prompt, with `"\nTerra User ID: {terra_user_id}"` appended when
`terra_user_id` is truthy (present and non-empty). -/
def routedPrompt (item : Item) : String :=
  match item.terra_user_id with
  | some uid => if uid = "" then resolvedPrompt item
                else resolvedPrompt item ++ ("\nTerra User ID: " ++ uid)
  | none => resolvedPrompt item

/-! ### Mode routing -/

/-- The three pipelines a request can be dispatched to. -/
inductive Pipeline where
  | liveWeb
  | scheduling
  | retrieval
deriving DecidableEq

/-- The classification of app.py lines 363-386 as a pure function of the
prompt the tests inspect: `"@internet"` first, then `"schedule"`, else the
retrieval default. -/
def classify (p : String) : Pipeline :=
  if strContains p "@internet" then Pipeline.liveWeb
  else if strContains p "schedule" then Pipeline.scheduling
  else Pipeline.retrieval

/-! ### Per-session state (Model.enter, app.py lines 99-298) -/

/-- The last row of the biometrics dataframe `self.df` would carry these
columns (app.py lines 426-428). -/
structure BioRow where
  menstrual_phase : String
  duration_in_bed : Nat
  temperature_delta : ℚ
deriving DecidableEq

/-- One entry of the tool registry `tools_data` (app.py lines 253-287): the
query-engine handler itself is an external collaborator, so only the
routing-relevant name and description are kept. -/
structure ToolData where
  name : String
  description : String
deriving DecidableEq

/-- The registry literal `tools_data` of app.py lines 253-287. -/
def tools_data : List ToolData :=
  [ { name := "mood/feeling",
      description := "Useful for questions related to women's mood and feelings" },
    { name := "diet/nutrition",
      description := "Useful for questions related to women's diet and nutrition recommendatations" },
    { name := "general",
      description := "Useful for general questions related to women's menstrual cycle" },
    { name := "fitness/wellness",
      description := "Useful for questions related to fitness and wellness advice for women" },
    { name := "NOTA",
      description := "Use this if none of the other tools are relevant to the query" },
    { name := "database",
      description := "Use this to get relevant biometrics (health parameters) data relevant to the query from the 'user_biometrics' SQL table. Always use the terra_user_id to filter data for the given user." } ]

/-- `day_names` of app.py lines 239-247. -/
def day_names : List String :=
  ["Monday", "Tuesday", "Wednesday", "Thursday", "Friday", "Saturday", "Sunday"]

/-- The attributes of the `Model` instance that the claims depend on.  Dates
are abstract day ordinals (a `Nat`); `chat_engine` is an abstract identifier
for the engine object, reassigned by the retrieval path; `df` is the
dataframe attribute that `biometrics_details` reads, `Option`-valued because
no method of the class assigns `self.df`. -/
structure ModelState where
  current_date : Nat
  day_name : String
  content_template : String
  phase_info : String
  tools : List ToolData
  df : Option BioRow
  chat_engine : Nat
deriving DecidableEq

/-- `Model.enter` (app.py lines 99-298), restricted to the claim-relevant
attributes: `current_date` is the wall-clock date `today` captured once when
the container starts (lines 234-236), `day_name` its weekday (modelled as
`today % 7` over the abstract day ordinal), `content_template` and
`phase_info` the context strings of lines 250-251, `tools` the registry of
lines 253-287, `chat_engine` the engine built at line 295.  No statement of
`enter` (nor of any other method) assigns `self.df`. -/
def enter (today : Nat) : ModelState :=
  let day_name := Moonsync.day_names.getD (today % 7) ""
  { current_date := today
    day_name := day_name
    content_template :=
      "\nImportant information to be considered while answering the query:\nCurrent Mensural Phase: Follicular \nToday's date: "
        ++ (toString today ++ (" \nDay of the week: " ++ (day_name ++ " \n Current Location: New York City")))
    phase_info := "My current mensural phase is: Follicular"
    tools := tools_data
    df := none
    chat_engine := 0 }

/-! ### Dispatch (the StreamingResponse returned by web_inference) -/

/-- The arguments handed to the external `EventSchedulerHandler` by
`Model._event_schedule_runner` (app.py lines 325-331): the prompt, the
transcript, and `current_date=self.current_date`. -/
structure EventSchedulerArgs where
  prompt : String
  messages : List (String × String)
  current_date : Nat
deriving DecidableEq

/-- Which generator the returned `StreamingResponse` wraps: exactly one of
`Model._online_inference`, `Model._event_schedule_runner`,
`Model._inference`. -/
inductive Dispatch where
  | onlineInference (prompt : String) (messages : List (String × String))
  | eventScheduleRunner (args : EventSchedulerArgs)
  | inference (prompt : String) (messages : List (String × String))
deriving DecidableEq

/-- The pipeline a dispatch belongs to. -/
def Dispatch.pipeline : Dispatch → Pipeline
  | .onlineInference _ _ => Pipeline.liveWeb
  | .eventScheduleRunner _ => Pipeline.scheduling
  | .inference _ _ => Pipeline.retrieval

/-- The prompt string forwarded to the selected pipeline. -/
def Dispatch.prompt : Dispatch → String
  | .onlineInference p _ => p
  | .eventScheduleRunner args => args.prompt
  | .inference p _ => p

/-- The reference date handed to the scheduling handler, when the dispatch
is a scheduling one. -/
def Dispatch.refDate : Dispatch → Option Nat
  | .eventScheduleRunner args => some args.current_date
  | _ => none

/-- `Model.web_inference` (app.py lines 336-386).  `imageSummary` models the
external `ImageHandler(image_url=...).run().text` collaborator: the text
summary produced for an image url.  Following the source: the prompt and
image url are extracted from `item["prompt"]` (lines 338-346); the image
handler runs when the image url is truthy (lines 349-350); the Terra user id
is appended to the prompt when truthy (lines 358-360); then `"@internet"`
is tested, then `"schedule"`, and otherwise the image summary (when one was
produced) is appended and the retrieval generator is returned
(lines 363-386). -/
def webInference (imageSummary : String → String) (st : ModelState) (item : Item) :
    Dispatch :=
  let pe :=
    match item.prompt with
    | .list l => extractPromptImage l
    | .str s => (s, "")
  let prompt0 := pe.1
  let image_url := pe.2
  let image_response : Option String :=
    if image_url = "" then none else some (imageSummary image_url)
  let prompt1 :=
    match item.terra_user_id with
    | some uid => if uid = "" then prompt0 else prompt0 ++ ("\nTerra User ID: " ++ uid)
    | none => prompt0
  if strContains prompt1 "@internet" then
    Dispatch.onlineInference prompt1 item.messages
  else if strContains prompt1 "schedule" then
    Dispatch.eventScheduleRunner
      { prompt := prompt1, messages := item.messages, current_date := st.current_date }
  else
    match image_response with
    | some summary =>
        Dispatch.inference
          (prompt1 ++ "\n" ++ "Additional information about the image uploaded \n " ++ summary)
          item.messages
    | none => Dispatch.inference prompt1 item.messages

/-- One request/response cycle of the container: `web_inference` runs, and
when the retrieval generator is consumed, `Model._inference` reassigns
`self.chat_engine` (app.py line 309; `newEngine` stands for the engine
returned by the external `chat_handler.run_offline()`).  No other attribute
is assigned by any request handler. -/
def handleRequest (imageSummary : String → String) (newEngine : Nat)
    (st : ModelState) (item : Item) : ModelState × Dispatch :=
  match webInference imageSummary st item with
  | .inference p m => ({ st with chat_engine := newEngine }, .inference p m)
  | d => (st, d)

/-- The container lifetime after `enter`: the requests processed in order,
each with the engine its retrieval run would produce. -/
def runRequests (imageSummary : String → String) (st : ModelState)
    (reqs : List (Item × Nat)) : ModelState :=
  reqs.foldl (fun acc r => (handleRequest imageSummary r.2 acc r.1).1) st

/-! ### The biometrics endpoints (app.py lines 422-443 and 458-487) -/

/-- What `_get_weather` (app.py lines 397-420) returns; an external
collaborator, passed in as a value. -/
structure WeatherData where
  location : String
  condition : String
  temp_f : ℚ
deriving DecidableEq

/-- Round-half-to-even to an integer, the rounding mode of Python's built-in
`round`. -/
def roundHalfEven (x : ℚ) : ℤ :=
  if x - ⌊x⌋ < 1 / 2 then ⌊x⌋
  else if 1 / 2 < x - ⌊x⌋ then ⌊x⌋ + 1
  else if ⌊x⌋ % 2 = 0 then ⌊x⌋ else ⌊x⌋ + 1

/-- Python's `round(x, 2)` over the rational model of floats. -/
def round2 (x : ℚ) : ℚ :=
  (roundHalfEven (x * 100) : ℚ) / 100

/-- The temperature computed by `biometrics_details` (app.py line 428,
rounded at line 440): `98.6 + temperature_delta`, then `round(..., 2)`. -/
def biometricsBodyTemperature (temperature_delta : ℚ) : ℚ :=
  round2 (98.6 + temperature_delta)

/-- A Python error outcome. -/
inductive PyError where
  | attributeError (name : String)
deriving DecidableEq

/-- The JSON body `biometrics_details` would return. -/
structure BiometricsResponse where
  menstrual_phase : String
  sleep : String
  body_temperature : ℚ
  weather : WeatherData
deriving DecidableEq

/-- `Model.biometrics_details` (app.py lines 422-443).  Its first statement
reads `self.df`; when the attribute was never assigned the lookup raises
`AttributeError` and nothing below it runs.  When a dataframe were present,
the endpoint would read the last row, format the sleep duration with two
`divmod`s, add the temperature delta to the 98.6 baseline, round it, and
merge in the weather data. -/
def biometrics_details (weather : WeatherData) (st : ModelState) :
    Except PyError BiometricsResponse :=
  match st.df with
  | none => Except.error (PyError.attributeError "df")
  | some row =>
      let m := row.duration_in_bed / 60
      let hours := m / 60
      let mins := m % 60
      Except.ok
        { menstrual_phase := row.menstrual_phase
          sleep := toString hours ++ " hours " ++ toString mins ++ " mins"
          body_temperature := biometricsBodyTemperature row.temperature_delta
          weather := weather }

/-- The JSON body of the dashboard-biometrics endpoint. -/
structure DashboardBiometricsResponse where
  status : String
  sleep : String
  body_temperature : ℚ
  menstrual_phase : String
  weather : WeatherData
deriving DecidableEq

/-- `Model.dasboard_biometric_data_load` (app.py lines 458-487).  `sleep`
and `temperature` come from the external `get_dashboard_data`; `temperature`
is `Option`-valued so Python's truthiness test covers both `None` and `0.0`.
The `body_temperature` line of the source is
`round(temperature if temperature else 0 + 98.6, 2)`, which parses as the
conditional expression `temperature if temperature else (0 + 98.6)` inside
`round(..., 2)`. -/
def dasboard_biometric_data_load (sleep : Nat) (temperature : Option ℚ)
    (weather : WeatherData) : DashboardBiometricsResponse :=
  let m := sleep / 60
  let hours := m / 60
  let mins := m % 60
  { status := "complete"
    sleep := toString hours ++ " hours " ++ toString mins ++ " mins"
    body_temperature :=
      round2 (match temperature with
              | some t => if t = 0 then 0 + 98.6 else t
              | none => 0 + 98.6)
    menstrual_phase := "Follicular"
    weather := weather }

/-! ### Lemmas about the substring test -/

theorem containsChars_nil (s : List Char) : containsChars [] s = true := by
  induction s with
  | nil => rfl
  | cons c cs ih => simp [containsChars, startsWithChars]

theorem startsWithChars_append (pat s t : List Char)
    (h : startsWithChars pat s = true) : startsWithChars pat (s ++ t) = true := by
  induction pat generalizing s with
  | nil => rfl
  | cons p ps ih =>
    cases s with
    | nil => simp [startsWithChars] at h
    | cons c cs =>
      simp only [List.cons_append, startsWithChars, Bool.and_eq_true] at h ⊢
      exact ⟨h.1, ih cs h.2⟩

theorem containsChars_append_left (pat s t : List Char)
    (h : containsChars pat s = true) : containsChars pat (s ++ t) = true := by
  induction s with
  | nil =>
    have hp : pat = [] := by
      cases pat with
      | nil => rfl
      | cons p ps => simp [containsChars, List.isEmpty] at h
    subst hp
    exact containsChars_nil t
  | cons c cs ih =>
    simp only [containsChars, Bool.or_eq_true] at h
    simp only [List.cons_append, containsChars, Bool.or_eq_true]
    rcases h with h | h
    · exact Or.inl (startsWithChars_append pat (c :: cs) t h)
    · exact Or.inr (ih h)

theorem containsChars_append_right (pat s t : List Char)
    (h : containsChars pat t = true) : containsChars pat (s ++ t) = true := by
  induction s with
  | nil => simpa using h
  | cons c cs ih =>
    simp only [List.cons_append, containsChars, Bool.or_eq_true]
    exact Or.inr ih

theorem startsWithChars_refl (l : List Char) : startsWithChars l l = true := by
  induction l with
  | nil => rfl
  | cons c cs ih => simp [startsWithChars, ih]

theorem containsChars_self (l : List Char) : containsChars l l = true := by
  cases l with
  | nil => rfl
  | cons c cs =>
    simp only [containsChars, Bool.or_eq_true]
    exact Or.inl (startsWithChars_refl (c :: cs))

theorem toList_append (s t : String) : (s ++ t).toList = s.toList ++ t.toList := by
  simp [String.toList]

theorem strContains_append_left {s pat : String} (t : String)
    (h : strContains s pat = true) : strContains (s ++ t) pat = true := by
  unfold strContains at h ⊢
  rw [toList_append]
  exact containsChars_append_left _ _ _ h

theorem strContains_append_right {t pat : String} (s : String)
    (h : strContains t pat = true) : strContains (s ++ t) pat = true := by
  unfold strContains at h ⊢
  rw [toList_append]
  exact containsChars_append_right _ _ _ h

theorem strContains_refl (s : String) : strContains s s = true :=
  containsChars_self s.toList

theorem strContains_empty_pat (s : String) : strContains s "" = true :=
  containsChars_nil s.toList

theorem routedPrompt_none (item : Item) (h : item.terra_user_id = none) :
    routedPrompt item = resolvedPrompt item := by
  unfold routedPrompt
  rw [h]

theorem routedPrompt_some_empty (item : Item) (h : item.terra_user_id = some "") :
    routedPrompt item = resolvedPrompt item := by
  unfold routedPrompt
  rw [h]
  show (if ("" : String) = "" then resolvedPrompt item
        else resolvedPrompt item ++ ("\nTerra User ID: " ++ "")) = resolvedPrompt item
  rw [if_pos rfl]

theorem routedPrompt_some (item : Item) (uid : String)
    (h : item.terra_user_id = some uid) (hne : uid ≠ "") :
    routedPrompt item = resolvedPrompt item ++ ("\nTerra User ID: " ++ uid) := by
  unfold routedPrompt
  rw [h]
  show (if uid = "" then resolvedPrompt item
        else resolvedPrompt item ++ ("\nTerra User ID: " ++ uid))
      = resolvedPrompt item ++ ("\nTerra User ID: " ++ uid)
  rw [if_neg hne]

/-! ### The routing normal form of web_inference -/

theorem webInference_eq (f : String → String) (st : ModelState) (item : Item) :
    webInference f st item =
      if strContains (routedPrompt item) "@internet" then
        Dispatch.onlineInference (routedPrompt item) item.messages
      else if strContains (routedPrompt item) "schedule" then
        Dispatch.eventScheduleRunner
          { prompt := routedPrompt item, messages := item.messages,
            current_date := st.current_date }
      else if resolvedImageUrl item = "" then
        Dispatch.inference (routedPrompt item) item.messages
      else
        Dispatch.inference
          (routedPrompt item ++ "\n" ++ "Additional information about the image uploaded \n "
            ++ f (resolvedImageUrl item))
          item.messages := by
  obtain ⟨pf, msgs, tid⟩ := item
  cases pf <;> cases tid <;>
    simp only [webInference, routedPrompt, resolvedPrompt, resolvedImageUrl] <;>
    split_ifs <;> rfl

/-! ### State invariance across requests -/

theorem handleRequest_current_date (f : String → String) (e : Nat)
    (st : ModelState) (item : Item) :
    (handleRequest f e st item).1.current_date = st.current_date := by
  unfold handleRequest
  cases webInference f st item <;> rfl

theorem handleRequest_tools (f : String → String) (e : Nat)
    (st : ModelState) (item : Item) :
    (handleRequest f e st item).1.tools = st.tools := by
  unfold handleRequest
  cases webInference f st item <;> rfl

theorem handleRequest_df (f : String → String) (e : Nat)
    (st : ModelState) (item : Item) :
    (handleRequest f e st item).1.df = st.df := by
  unfold handleRequest
  cases webInference f st item <;> rfl

theorem runRequests_current_date (f : String → String) (reqs : List (Item × Nat)) :
    ∀ st : ModelState, (runRequests f st reqs).current_date = st.current_date := by
  induction reqs with
  | nil => intro st; rfl
  | cons r rs ih =>
    intro st
    have h : runRequests f st (r :: rs)
        = runRequests f ((handleRequest f r.2 st r.1).1) rs := rfl
    rw [h, ih, handleRequest_current_date]

theorem runRequests_tools (f : String → String) (reqs : List (Item × Nat)) :
    ∀ st : ModelState, (runRequests f st reqs).tools = st.tools := by
  induction reqs with
  | nil => intro st; rfl
  | cons r rs ih =>
    intro st
    have h : runRequests f st (r :: rs)
        = runRequests f ((handleRequest f r.2 st r.1).1) rs := rfl
    rw [h, ih, handleRequest_tools]

theorem runRequests_df (f : String → String) (reqs : List (Item × Nat)) :
    ∀ st : ModelState, (runRequests f st reqs).df = st.df := by
  induction reqs with
  | nil => intro st; rfl
  | cons r rs ih =>
    intro st
    have h : runRequests f st (r :: rs)
        = runRequests f ((handleRequest f r.2 st r.1).1) rs := rfl
    rw [h, ih, handleRequest_df]

/-! ### The claims -/

/-- C1: every incoming prompt whose resolved text contains the live-web
marker `"@internet"` is routed to the live-web pipeline
(`_online_inference`), regardless of whether `"schedule"` also occurs in it:
the `"@internet"` substring test is evaluated before the `"schedule"` test
and the first match wins. -/
theorem internet_marker_wins (f : String → String) (st : ModelState) (item : Item)
    (h : strContains (resolvedPrompt item) "@internet" = true) :
    (webInference f st item).pipeline = Pipeline.liveWeb := by
  have hr : strContains (routedPrompt item) "@internet" = true := by
    cases htid : item.terra_user_id with
    | none => rw [routedPrompt_none item htid]; exact h
    | some uid =>
      by_cases he : uid = ""
      · rw [he] at htid
        rw [routedPrompt_some_empty item htid]; exact h
      · rw [routedPrompt_some item uid htid he]
        exact strContains_append_left _ h
  rw [webInference_eq, if_pos hr]
  rfl

/-- C1 witness: the spec's example prompt, which contains both markers, is
routed to the live-web pipeline. -/
theorem internet_marker_wins_witness :
    strContains
        (resolvedPrompt
          ⟨PromptField.str "What's the weather and can you schedule a run @internet", [], none⟩)
        "@internet" = true ∧
    (webInference (fun _ => "") (enter 0)
        ⟨PromptField.str "What's the weather and can you schedule a run @internet", [], none⟩).pipeline
      = Pipeline.liveWeb := by
  exact ⟨by decide, internet_marker_wins _ _ _ (by decide)⟩

/-- C2 counterexample: with raw prompt `"hi"` and terra_user_id
`"my-schedule-id"`, the marker tests inspect the prompt with the Terra User
ID line appended, so the request is routed to the scheduling pipeline even
though the raw user text contains no marker (on the raw text the
classification would be retrieval). -/
theorem raw_text_tests_counterexample :
    (webInference (fun _ => "") (enter 0)
        ⟨PromptField.str "hi", [], some "my-schedule-id"⟩).pipeline = Pipeline.scheduling ∧
    classify "hi" = Pipeline.retrieval := by
  exact ⟨by decide, by decide⟩

/-- C2 amended: the marker checks are substring tests on the resolved user
prompt with the `"\nTerra User ID: {id}"` line appended first whenever a
truthy terra_user_id is supplied; only when terra_user_id is absent or empty
do they inspect exactly the raw user text.  The image summary never takes
part in the inspected string: the selected pipeline is the classification of
the routed prompt, whatever the image collaborator returns. -/
theorem raw_text_tests_amended (f g : String → String) (st : ModelState) (item : Item) :
    (webInference f st item).pipeline = classify (routedPrompt item) ∧
    (webInference f st item).pipeline = (webInference g st item).pipeline ∧
    (item.terra_user_id = none → routedPrompt item = resolvedPrompt item) ∧
    (item.terra_user_id = some "" → routedPrompt item = resolvedPrompt item) ∧
    (∀ uid, item.terra_user_id = some uid → uid ≠ "" →
      routedPrompt item = resolvedPrompt item ++ ("\nTerra User ID: " ++ uid)) := by
  refine ⟨?_, ?_, ?_, ?_, ?_⟩
  · rw [webInference_eq]; unfold classify; split_ifs <;> rfl
  · rw [webInference_eq, webInference_eq]; split_ifs <;> rfl
  · intro h; exact routedPrompt_none item h
  · intro h; exact routedPrompt_some_empty item h
  · intro uid h hne; exact routedPrompt_some item uid h hne

/-- C3 counterexample: a structured prompt mixing the text `"hello there"`
and an image whose summary contains `"@internet"`.  Were the summary
appended before the marker checks, the summary-extended prompt would
classify as live-web; the code instead selects the retrieval pipeline,
because it routes on the prompt without the summary. -/
theorem image_summary_before_routing_counterexample :
    (webInference (fun _ => "This image says @internet") (enter 0)
        ⟨PromptField.list [PromptContent.textItem "hello there",
                           PromptContent.imageItem "https-image"], [], none⟩).pipeline
      = Pipeline.retrieval ∧
    classify ("hello there" ++ "\n" ++ "Additional information about the image uploaded \n "
        ++ "This image says @internet") = Pipeline.liveWeb := by
  exact ⟨by decide, by decide⟩

/-- C3 amended: the image's text summary is appended only after the
mode-routing marker checks, and only on the retrieval path: the pipeline
selection is made on the routed prompt without the image summary (and is
independent of the image collaborator); when retrieval is selected for a
request that carried an image url, the prompt forwarded to the retrieval
pipeline is the routed prompt with the summary appended. -/
theorem image_summary_after_routing (f g : String → String) (st : ModelState) (item : Item) :
    (webInference f st item).pipeline = (webInference g st item).pipeline ∧
    (webInference f st item).pipeline = classify (routedPrompt item) ∧
    (resolvedImageUrl item ≠ "" →
      (webInference f st item).pipeline = Pipeline.retrieval →
      (webInference f st item).prompt
        = routedPrompt item ++ "\n" ++ "Additional information about the image uploaded \n "
            ++ f (resolvedImageUrl item)) := by
  refine ⟨?_, ?_, ?_⟩
  · rw [webInference_eq, webInference_eq]; split_ifs <;> rfl
  · rw [webInference_eq]; unfold classify; split_ifs <;> rfl
  · intro hurl hpipe
    rw [webInference_eq] at hpipe ⊢
    by_cases h1 : strContains (routedPrompt item) "@internet" = true
    · rw [if_pos h1] at hpipe
      exact absurd hpipe (by simp [Dispatch.pipeline])
    · rw [if_neg h1] at hpipe ⊢
      by_cases h2 : strContains (routedPrompt item) "schedule" = true
      · rw [if_pos h2] at hpipe
        exact absurd hpipe (by simp [Dispatch.pipeline])
      · rw [if_neg h2] at hpipe ⊢
        rw [if_neg hurl]
        rfl

/-- C4: on every scheduling-routed request, the reference date handed to the
external `EventSchedulerHandler` is the session's `current_date` stored once
by `enter` at container start: whatever requests were already processed
during the lifetime, the scheduling dispatch carries that same stored date,
not a per-call date. -/
theorem scheduling_reference_date (d : Nat) (f g : String → String)
    (reqs : List (Item × Nat)) (item : Item)
    (h : (webInference g (runRequests f (enter d) reqs) item).pipeline
          = Pipeline.scheduling) :
    (webInference g (runRequests f (enter d) reqs) item).refDate = some d := by
  have hd : (runRequests f (enter d) reqs).current_date = d := by
    rw [runRequests_current_date]; rfl
  rw [webInference_eq] at h ⊢
  split_ifs at h ⊢ with h1 h2 h3
  · exact absurd h (by simp [Dispatch.pipeline])
  · simp [Dispatch.refDate, hd]
  · exact absurd h (by simp [Dispatch.pipeline])
  · exact absurd h (by simp [Dispatch.pipeline])

/-- C4 witness: after one retrieval request, a scheduling request of the
session started on abstract day 7 carries reference date 7. -/
theorem scheduling_reference_date_witness :
    (webInference (fun _ => "")
        (runRequests (fun _ => "") (enter 7) [(⟨PromptField.str "hello", [], none⟩, 5)])
        ⟨PromptField.str "schedule a checkup next Friday", [], none⟩).pipeline
      = Pipeline.scheduling ∧
    (webInference (fun _ => "")
        (runRequests (fun _ => "") (enter 7) [(⟨PromptField.str "hello", [], none⟩, 5)])
        ⟨PromptField.str "schedule a checkup next Friday", [], none⟩).refDate = some 7 := by
  exact ⟨by decide, scheduling_reference_date 7 _ _ _ _ (by decide)⟩

/-- C5: mode routing is total and exclusive — every request is dispatched to
exactly one of the three pipelines; which one is a pure function of the
routed prompt alone (classification touches no state), characterized by the
two marker tests with retrieval as the universal default. -/
theorem routing_total_exclusive (f : String → String) (st : ModelState) (item : Item) :
    (webInference f st item).pipeline = classify (routedPrompt item) ∧
    (classify (routedPrompt item) = Pipeline.liveWeb ↔
       strContains (routedPrompt item) "@internet" = true) ∧
    (classify (routedPrompt item) = Pipeline.scheduling ↔
       (strContains (routedPrompt item) "@internet" = false ∧
        strContains (routedPrompt item) "schedule" = true)) ∧
    (classify (routedPrompt item) = Pipeline.retrieval ↔
       (strContains (routedPrompt item) "@internet" = false ∧
        strContains (routedPrompt item) "schedule" = false)) := by
  refine ⟨?_, ?_⟩
  · rw [webInference_eq]; unfold classify; split_ifs <;> rfl
  · cases hc1 : strContains (routedPrompt item) "@internet" <;>
      cases hc2 : strContains (routedPrompt item) "schedule" <;>
      simp [classify, hc1, hc2]

/-- C6: the tool registry is the literal built once by `enter` at container
start, is preserved unchanged by every request, and contains exactly one
fallback tool named `"NOTA"` alongside the four domain retrieval tools and
the structured biometrics `"database"` tool — in particular it is never
empty, so routing a sub-question never faces zero candidate tools. -/
theorem tool_registry_fixed (d : Nat) (f : String → String) (reqs : List (Item × Nat)) :
    (enter d).tools = tools_data ∧
    (runRequests f (enter d) reqs).tools = tools_data ∧
    (tools_data.filter (fun t => t.name == "NOTA")).length = 1 ∧
    tools_data.map (fun t => t.name)
      = ["mood/feeling", "diet/nutrition", "general", "fitness/wellness", "NOTA", "database"] ∧
    tools_data ≠ [] := by
  refine ⟨by rfl, ?_, by decide, by decide, by decide⟩
  rw [runRequests_tools]
  rfl

/-- C7: whenever the request carries a terra_user_id, the prompt forwarded
to the selected pipeline — whichever of the three it is — contains that
identifier, because the id line is appended to the prompt before routing. -/
theorem terra_user_id_forwarded (f : String → String) (st : ModelState)
    (item : Item) (uid : String) (h : item.terra_user_id = some uid) :
    strContains ((webInference f st item).prompt) uid = true := by
  have hbase : strContains (routedPrompt item) uid = true := by
    by_cases he : uid = ""
    · rw [he] at h ⊢
      rw [routedPrompt_some_empty item h]
      exact strContains_empty_pat _
    · rw [routedPrompt_some item uid h he]
      exact strContains_append_right _ (strContains_append_right _ (strContains_refl uid))
  rw [webInference_eq]
  split_ifs with h1 h2 h3
  · exact hbase
  · exact hbase
  · exact hbase
  · exact strContains_append_left _ (strContains_append_left _ (strContains_append_left _ hbase))

/-- C7 witness: a request with terra_user_id `"u123"` forwards a prompt
containing `"u123"`. -/
theorem terra_user_id_forwarded_witness :
    (⟨PromptField.str "how did I sleep", [], some "u123"⟩ : Item).terra_user_id
      = some "u123" ∧
    strContains
        ((webInference (fun _ => "") (enter 0)
            ⟨PromptField.str "how did I sleep", [], some "u123"⟩).prompt)
        "u123" = true := by
  exact ⟨rfl, terra_user_id_forwarded _ _ _ _ rfl⟩

/-- Auxiliary for C8: the first component of the extraction fold is the last
text entry seen so far, whatever the accumulator started as. -/
theorem extractFoldAux (l : List PromptContent) :
    ∀ p u : String,
      (List.foldl extractStep (p, u) l).1 = (textEntries l).getLastD p := by
  induction l with
  | nil => intro p u; rfl
  | cons v vs ih =>
    intro p u
    cases v with
    | textItem s =>
      show (List.foldl extractStep (s, u) vs).1 = (s :: textEntries vs).getLastD p
      rw [List.getLastD_cons]
      exact ih s u
    | imageItem u2 =>
      show (List.foldl extractStep (p, u2) vs).1 = (textEntries vs).getLastD p
      exact ih p u2
    | otherItem =>
      show (List.foldl extractStep (p, u) vs).1 = (textEntries vs).getLastD p
      exact ih p u

/-- C8: when the structured-content prompt list holds several `"text"`
entries, each later one overwrites the earlier ones: the resolved prompt is
exactly the LAST text entry (or `""` when there is none) — earlier text
entries are silently discarded, never concatenated. -/
theorem last_text_entry_wins (l : List PromptContent) (msgs : List (String × String))
    (tid : Option String) :
    resolvedPrompt ⟨PromptField.list l, msgs, tid⟩ = (textEntries l).getLastD "" := by
  unfold resolvedPrompt extractPromptImage
  exact extractFoldAux l "" ""

/-- C9: every invocation of `biometrics_details` fails with an
attribute-lookup error and never returns a response: it reads `self.df`, an
attribute that neither `enter` nor any request handler ever assigns, so
after any request sequence of the container lifetime the lookup raises. -/
theorem biometrics_details_always_raises (d : Nat) (f : String → String)
    (reqs : List (Item × Nat)) (w : WeatherData) :
    biometrics_details w (runRequests f (enter d) reqs)
      = Except.error (PyError.attributeError "df") := by
  have h : (runRequests f (enter d) reqs).df = none := by
    rw [runRequests_df]
    rfl
  unfold biometrics_details
  rw [h]


/-- C10: the dashboard endpoint's `body_temperature` is `round(temperature,
2)` whenever `temperature` is truthy — the 98.6 baseline is NOT added — and
98.6 whenever it is falsy (`None` or `0`), because the source expression
parses as `temperature if temperature else (0 + 98.6)`; this differs from
`biometrics_details`, which computes `round(98.6 + temperature_delta, 2)`
(at temperature 1/2 the two formulas disagree: 0.5 versus 99.1). -/
theorem dashboard_body_temperature_no_baseline (s : Nat) (w : WeatherData) (t : ℚ) :
    (t ≠ 0 → (dasboard_biometric_data_load s (some t) w).body_temperature = round2 t) ∧
    (dasboard_biometric_data_load s (some 0) w).body_temperature = 98.6 ∧
    (dasboard_biometric_data_load s none w).body_temperature = 98.6 ∧
    biometricsBodyTemperature t = round2 (98.6 + t) ∧
    (dasboard_biometric_data_load s (some (1 / 2)) w).body_temperature
      ≠ biometricsBodyTemperature (1 / 2) := by
  refine ⟨?_, ?_, ?_, rfl, ?_⟩
  · intro ht
    simp [dasboard_biometric_data_load, if_neg ht]
  · norm_num [dasboard_biometric_data_load, round2, roundHalfEven]
  · norm_num [dasboard_biometric_data_load, round2, roundHalfEven]
  · norm_num [dasboard_biometric_data_load, biometricsBodyTemperature, round2, roundHalfEven]

end Moonsync
